import Mathlib

set_option maxRecDepth 4000

/-!
Verification of the socionics repository's relation classifier and scraper
retry policy, shallowly embedded from the source:
  - `classifyRelation`, `RELATION_COLORS` and the duals set construction
    (App.jsx as listed in .qwen/QWEN.md, lines 2865-2906);
  - `TYPE_INFO`, `TYPE_CODES`, `DUAL_PAIRS` (src/data/loaders.js);
  - `fetchWithRetry` (scripts/scrape.mjs, lines 61-81).
All enumerated fields are kept as strings, mirroring the dynamically typed
JavaScript source.
-/

namespace Socionics

/-- A type record as produced by the data layer: the `code` key of the
`TYPE_INFO` object together with its field values
(src/data/loaders.js lines 40-57). -/
structure TypeRecord where
  code : String
  fullName : String
  «alias» : String
  quadra : String
  temperament : String
  leading : String
  creative : String
  deriving DecidableEq, Repr

/-- The 16 canonical type codes, in source order (loaders.js lines 2-19). -/
def TYPE_CODES : List String :=
  ["ILE", "SEI", "LII", "ESE", "SLE", "IEI", "LSI", "EIE",
   "SEE", "ILI", "ESI", "LIE", "LSE", "EII", "SLI", "IEE"]

/-- The `TYPE_INFO` object of loaders.js lines 40-57: a mapping from code to
record (the record carries its own key as `code`, as `fetchType` emits it). -/
def TYPE_INFO : String → Option TypeRecord
  | "ILE" => some ⟨"ILE", "Intuitive Logical Extravert", "ENTp", "Alpha", "EP", "Ne", "Ti"⟩
  | "SEI" => some ⟨"SEI", "Sensing Ethical Introvert", "ISFp", "Alpha", "IJ", "Si", "Fe"⟩
  | "LII" => some ⟨"LII", "Logical Intuitive Introvert", "INTj", "Alpha", "IJ", "Ti", "Ne"⟩
  | "ESE" => some ⟨"ESE", "Ethical Sensing Extravert", "ESFj", "Alpha", "EJ", "Fe", "Si"⟩
  | "SLE" => some ⟨"SLE", "Sensing Logical Extravert", "ESTp", "Beta", "EP", "Se", "Ti"⟩
  | "IEI" => some ⟨"IEI", "Intuitive Ethical Introvert", "INFp", "Beta", "IP", "Ni", "Fe"⟩
  | "LSI" => some ⟨"LSI", "Logical Sensing Introvert", "ISTj", "Beta", "IJ", "Ti", "Se"⟩
  | "EIE" => some ⟨"EIE", "Ethical Intuitive Extravert", "ENFj", "Beta", "EJ", "Fe", "Ni"⟩
  | "SEE" => some ⟨"SEE", "Sensing Ethical Extravert", "ESFp", "Gamma", "EP", "Se", "Fi"⟩
  | "ILI" => some ⟨"ILI", "Intuitive Logical Introvert", "INTp", "Gamma", "IP", "Ni", "Te"⟩
  | "ESI" => some ⟨"ESI", "Ethical Sensing Introvert", "ISFj", "Gamma", "IJ", "Fi", "Se"⟩
  | "LIE" => some ⟨"LIE", "Logical Intuitive Extravert", "ENTj", "Gamma", "EJ", "Te", "Ni"⟩
  | "LSE" => some ⟨"LSE", "Logical Sensing Extravert", "ESTj", "Delta", "EJ", "Te", "Si"⟩
  | "EII" => some ⟨"EII", "Ethical Intuitive Introvert", "INFj", "Delta", "IJ", "Fi", "Ne"⟩
  | "SLI" => some ⟨"SLI", "Sensing Logical Introvert", "ISTp", "Delta", "IP", "Si", "Te"⟩
  | "IEE" => some ⟨"IEE", "Intuitive Ethical Extravert", "ENFp", "Delta", "EP", "Ne", "Fi"⟩
  | _ => none

/-- The record for a canonical code (total helper over the closed domain). -/
def typeOf (c : String) : TypeRecord :=
  (TYPE_INFO c).getD ⟨"", "", "", "", "", "", ""⟩

/-- The 16 canonical records, in `TYPE_CODES` order. -/
def canonicalTypes : List TypeRecord :=
  TYPE_CODES.filterMap TYPE_INFO

/-- The 8 canonical dual pairs (loaders.js lines 59-68; identical list in
scripts/scrape.mjs lines 188-191). -/
def DUAL_PAIRS : List (String × String) :=
  [("ILE", "SEI"), ("LII", "ESE"), ("SLE", "IEI"), ("LSI", "EIE"),
   ("SEE", "ILI"), ("ESI", "LIE"), ("LSE", "EII"), ("SLI", "IEE")]

/-- Lexicographic comparison of character sequences by code unit, as
JavaScript's default `Array.prototype.sort` compares strings. -/
def charsLe : List Char → List Char → Bool
  | [], _ => true
  | _ :: _, [] => false
  | a :: as, b :: bs =>
    if a.val.toNat < b.val.toNat then true
    else if b.val.toNat < a.val.toNat then false
    else charsLe as bs

/-- JavaScript string comparison used by `.sort()` (code-unit lexicographic). -/
def strLe (a b : String) : Bool := charsLe a.data b.data

/-- `[a, b].sort().join("-")`: the canonical unordered-pair key used both to
build the duals set and to query it (App.jsx / scrape.mjs `dualKey`). -/
def dualKey (a b : String) : String :=
  if strLe a b then a ++ "-" ++ b else b ++ "-" ++ a

/-- The duals set the app builds:
`new Set(relations.filter(r=>r.name==="Duality").map(r => [r.a, r.b].sort().join("-")))`
where `relations` holds exactly the 8 `DUAL_PAIRS` entries, each named
"Duality" (loaders.js `buildRelations`). -/
def DUALS : List String :=
  DUAL_PAIRS.map (fun p => dualKey p.1 p.2)

/-- Membership test of the duals set (`duals.has(key)`). -/
def dualsHas (k : String) : Bool :=
  DUALS.contains k

/-- `RELATION_COLORS` static lookup table (App.jsx lines 2865-2876). -/
def RELATION_COLORS : String → Option String := fun l =>
  if l = "Identity" then some "#475569"
  else if l = "Duality" then some "#16a34a"
  else if l = "Activation" then some "#06b6d4"
  else if l = "Mirror" then some "#6366f1"
  else if l = "Semi-duality" then some "#14b8a6"
  else if l = "Extinguishment" then some "#94a3b8"
  else if l = "Conflict" then some "#ef4444"
  else if l = "Business" then some "#f97316"
  else if l = "Super-ego" then some "#eab308"
  else if l = "Other" then some "#64748b"
  else none

/-- The color of the `Other` fallback, `RELATION_COLORS.Other`. -/
def otherColor : String := "#64748b"

/-- JavaScript `Array.prototype.indexOf`: first index of `x`, `-1` if absent. -/
def jsIndexOf : List String → String → Int
  | [], _ => -1
  | y :: ys, x =>
    if y = x then 0
    else
      let r := jsIndexOf ys x
      if r = -1 then -1 else r + 1

/-- `const quadraOrder = ['Alpha','Beta','Gamma','Delta']`. -/
def quadraOrder : List String := ["Alpha", "Beta", "Gamma", "Delta"]

/-- `const isIdentity = aType.code === bType.code`. -/
def isIdentity (a b : TypeRecord) : Bool := a.code == b.code

/-- `const isDual = !!duals && typeof duals.has === 'function' ? duals.has(key) : false`
with `key = [aType.code, bType.code].sort().join('-')`; a `duals` argument
that is absent or lacks a usable `has` method is modelled as `none`. -/
def isDual (duals : Option (String → Bool)) (a b : TypeRecord) : Bool :=
  match duals with
  | some has => has (dualKey a.code b.code)
  | none => false

/-- `const sameQuadra = aType.quadra === bType.quadra`. -/
def sameQuadra (a b : TypeRecord) : Bool := a.quadra == b.quadra

/-- `const sameLead = aType.leading === bType.leading`. -/
def sameLead (a b : TypeRecord) : Bool := a.leading == b.leading

/-- `const sameCreative = aType.creative === bType.creative`. -/
def sameCreative (a b : TypeRecord) : Bool := a.creative == b.creative

/-- `const activator = aType.leading === bType.creative && aType.creative === bType.leading`. -/
def activator (a b : TypeRecord) : Bool :=
  a.leading == b.creative && a.creative == b.leading

/-- `const mirror = sameLead && sameCreative && !isIdentity`. -/
def mirror (a b : TypeRecord) : Bool :=
  sameLead a b && sameCreative a b && !isIdentity a b

/-- `const semiDual = (aType.leading === bType.creative && !activator) || (bType.leading === aType.creative && !activator)`. -/
def semiDual (a b : TypeRecord) : Bool :=
  (a.leading == b.creative && !activator a b) || (b.leading == a.creative && !activator a b)

/-- `const qd = Math.abs(quadraOrder.indexOf(aType.quadra) - quadraOrder.indexOf(bType.quadra))`. -/
def qd (a b : TypeRecord) : Nat :=
  (jsIndexOf quadraOrder a.quadra - jsIndexOf quadraOrder b.quadra).natAbs

/-- `const business = (qd === 1 || qd === 3) && !isDual && !semiDual`. -/
def business (duals : Option (String → Bool)) (a b : TypeRecord) : Bool :=
  (qd a b == 1 || qd a b == 3) && !isDual duals a b && !semiDual a b

/-- `const conflict = (qd === 2) && !sameQuadra && !isDual`. -/
def conflict (duals : Option (String → Bool)) (a b : TypeRecord) : Bool :=
  qd a b == 2 && !sameQuadra a b && !isDual duals a b

/-- `const extinguishment = (sameLead && !isIdentity) || (sameCreative && !mirror)`. -/
def extinguishment (a b : TypeRecord) : Bool :=
  (sameLead a b && !isIdentity a b) || (sameCreative a b && !mirror a b)

/-- `const superEgo = !isIdentity && !isDual && !sameQuadra && !activator && !mirror && !semiDual && !extinguishment && !business`. -/
def superEgo (duals : Option (String → Bool)) (a b : TypeRecord) : Bool :=
  !isIdentity a b && !isDual duals a b && !sameQuadra a b && !activator a b &&
    !mirror a b && !semiDual a b && !extinguishment a b && !business duals a b

/-- The label conditional chain of `classifyRelation` (App.jsx lines 2896-2904). -/
def relationLabel (duals : Option (String → Bool)) (a b : TypeRecord) : String :=
  if isIdentity a b then "Identity"
  else if isDual duals a b then "Duality"
  else if activator a b then "Activation"
  else if mirror a b then "Mirror"
  else if semiDual a b then "Semi-duality"
  else if extinguishment a b then "Extinguishment"
  else if conflict duals a b then "Conflict"
  else if business duals a b then "Business"
  else if superEgo duals a b then "Super-ego"
  else "Other"

/-- The classifier's result `{ key, color }`. -/
structure RelationResult where
  key : String
  color : String
  deriving DecidableEq, Repr

/-- `classifyRelation(aType, bType, duals)` (App.jsx lines 2878-2906).
Missing (`null`/`undefined`) record arguments are modelled as `none`; a
`duals` argument without a usable `has` method is modelled as `none`. -/
def classifyRelation (aType bType : Option TypeRecord)
    (duals : Option (String → Bool)) : RelationResult :=
  match aType, bType with
  | some a, some b =>
    let label := relationLabel duals a b
    { key := label, color := (RELATION_COLORS label).getD otherColor }
  | _, _ => { key := "Other", color := otherColor }

/-- The classifier on the canonical domain, with the canonical duals set. -/
def classify (a b : TypeRecord) : RelationResult :=
  classifyRelation (some a) (some b) (some dualsHas)

/-- The fixed relation-label enumeration (keys of `RELATION_COLORS`). -/
def relationLabels : List String :=
  ["Identity", "Duality", "Activation", "Mirror", "Semi-duality",
   "Extinguishment", "Conflict", "Business", "Super-ego", "Other"]

/-- Observable outcome of one `fetchWithRetry` call: how many attempts ran,
the backoff delays slept between them (in milliseconds, in order), and
whether the call returned a response (`ok = true`) or threw. -/
structure FetchTrace where
  attemptsMade : Nat
  delays : List Nat
  ok : Bool
  deriving DecidableEq, Repr

/-- The retry loop of `fetchWithRetry` (scripts/scrape.mjs lines 62-80),
modelled over an abstract per-attempt outcome `succeeds` (attempt numbers
start at 1; a failed attempt covers both a non-ok HTTP status and an abort
by that attempt's own independent `timeoutMs` timer). `fuel` counts the
failed attempts still granted a retry: the JS guard
`if (attempt > retries + 1) throw` grants a retry exactly to failed attempts
numbered `1 .. retries + 1`, so the loop starts with `fuel = retries + 1`.
A failed attempt `a` with fuel left sleeps `400 * a` milliseconds
(`await delay(400 * attempt)`) and tries again; with no fuel left the loop
throws. -/
def fetchGo (succeeds : Nat → Bool) : Nat → Nat → FetchTrace
  | a, 0 => if succeeds a then ⟨a, [], true⟩ else ⟨a, [], false⟩
  | a, fuel + 1 =>
    if succeeds a then ⟨a, [], true⟩
    else
      let r := fetchGo succeeds (a + 1) fuel
      ⟨r.attemptsMade, 400 * a :: r.delays, r.ok⟩

/-- `fetchWithRetry(url, { timeoutMs = 8000, retries = 2 })` (scrape.mjs
lines 62-81), reduced to its retry/backoff/throw skeleton. -/
def fetchWithRetry (retries : Nat) (succeeds : Nat → Bool) : FetchTrace :=
  fetchGo succeeds 1 (retries + 1)

/-- The default of the `retries` option of `fetchWithRetry`. -/
def defaultRetries : Nat := 2

/-- A run of the retry loop in which every attempt that gets to run fails
makes exactly `a + fuel` its last attempt number, sleeps `400 * k` ms after
each failed attempt `k` that still had fuel, and ends by throwing. -/
theorem fetchGo_all_fail (succeeds : Nat → Bool) (fuel : Nat) :
    ∀ a, (∀ k, a ≤ k → k ≤ a + fuel → succeeds k = false) →
      fetchGo succeeds a fuel =
        ⟨a + fuel, (List.range' a fuel).map (fun k => 400 * k), false⟩ := by
  induction fuel with
  | zero =>
    intro a h
    simp [fetchGo, h a le_rfl (by omega)]
  | succ n ih =>
    intro a h
    have ha : succeeds a = false := h a le_rfl (by omega)
    have hr := ih (a + 1) (fun k h1 h2 => h k (by omega) (by omega))
    simp [fetchGo, ha, hr, List.range'_succ]
    omega

end Socionics

namespace Socionics

/-- Claim C1 (amended): on every ordered pair of the 16 canonical records on
which none of the eight rule flags (identity, duality, activation, mirror,
semi-duality, extinguishment, conflict, business) is set, `classifyRelation`
returns the label "Other" — not "Super-ego" — and every such pair is a
same-quadra pair; moreover "Super-ego" is unreachable on the canonical
16x16 domain (the `superEgo` flag additionally demands differing quadras,
which no residual pair satisfies). -/
theorem C1_residual_other :
    (∀ a ∈ canonicalTypes, ∀ b ∈ canonicalTypes,
      isIdentity a b = false → isDual (some dualsHas) a b = false →
      activator a b = false → mirror a b = false → semiDual a b = false →
      extinguishment a b = false → conflict (some dualsHas) a b = false →
      business (some dualsHas) a b = false →
      (classify a b).key = "Other" ∧ sameQuadra a b = true) ∧
    (∀ a ∈ canonicalTypes, ∀ b ∈ canonicalTypes,
      (classify a b).key ≠ "Super-ego") := by
  decide

/-- Claim C1, counterexample to the claim as stated: ILE and ESE are
canonical records (both Alpha) on which none of the eight rules matches,
yet `classifyRelation` returns "Other", not "Super-ego" — so the
'Super-ego' catch-all is never reached and the 'Other' default is
reachable on the canonical domain. -/
theorem C1_counterexample :
    (typeOf "ILE") ∈ canonicalTypes ∧ (typeOf "ESE") ∈ canonicalTypes ∧
    isIdentity (typeOf "ILE") (typeOf "ESE") = false ∧
    isDual (some dualsHas) (typeOf "ILE") (typeOf "ESE") = false ∧
    activator (typeOf "ILE") (typeOf "ESE") = false ∧
    mirror (typeOf "ILE") (typeOf "ESE") = false ∧
    semiDual (typeOf "ILE") (typeOf "ESE") = false ∧
    extinguishment (typeOf "ILE") (typeOf "ESE") = false ∧
    conflict (some dualsHas) (typeOf "ILE") (typeOf "ESE") = false ∧
    business (some dualsHas) (typeOf "ILE") (typeOf "ESE") = false ∧
    (classify (typeOf "ILE") (typeOf "ESE")).key = "Other" ∧
    (classify (typeOf "ILE") (typeOf "ESE")).key ≠ "Super-ego" := by
  decide

/-- Claim C1, witness: the amended theorem applied to the concrete residual
pair (ILE, ESE). -/
theorem C1_residual_other_witness :
    (classify (typeOf "ILE") (typeOf "ESE")).key = "Other" ∧
    sameQuadra (typeOf "ILE") (typeOf "ESE") = true :=
  C1_residual_other.1 (typeOf "ILE") (by decide) (typeOf "ESE") (by decide)
    (by decide) (by decide) (by decide) (by decide) (by decide) (by decide)
    (by decide) (by decide)

/-- Claim C2: every ordered pair of distinct canonical records whose quadra
distance over [Alpha, Beta, Gamma, Delta] equals 2 and that is not a dual
pair is classified "Conflict" (checked exhaustively over the 16x16
domain). -/
theorem C2_conflict_boundary :
    ∀ a ∈ canonicalTypes, ∀ b ∈ canonicalTypes,
      a.code ≠ b.code → qd a b = 2 → isDual (some dualsHas) a b = false →
      (classify a b).key = "Conflict" := by
  decide

/-- Claim C2, witness: ILE (Alpha) versus SEE (Gamma) has quadra distance 2,
is not a dual pair, and is classified "Conflict". -/
theorem C2_conflict_boundary_witness :
    qd (typeOf "ILE") (typeOf "SEE") = 2 ∧
    (classify (typeOf "ILE") (typeOf "SEE")).key = "Conflict" :=
  ⟨by decide,
   C2_conflict_boundary (typeOf "ILE") (by decide) (typeOf "SEE") (by decide)
     (by decide) (by decide) (by decide)⟩

/-- Claim C3: `classifyRelation` with the canonical duals set returns the
same label on (a, b) and on (b, a), for every ordered pair of the 16
canonical records. -/
theorem C3_symmetry :
    ∀ a ∈ canonicalTypes, ∀ b ∈ canonicalTypes,
      (classify a b).key = (classify b a).key := by
  decide

/-- Claim C3, witness: symmetry at the concrete pair (ILE, LII). -/
theorem C3_symmetry_witness :
    (classify (typeOf "ILE") (typeOf "LII")).key =
      (classify (typeOf "LII") (typeOf "ILE")).key :=
  C3_symmetry (typeOf "ILE") (by decide) (typeOf "LII") (by decide)

/-- Claim C4: on all 256 ordered pairs of canonical records the classifier
is total — in this embedding `classify` is a total function returning a
single `RelationResult`, and its label always lies in the fixed ten-label
enumeration. -/
theorem C4_totality :
    ∀ a ∈ canonicalTypes, ∀ b ∈ canonicalTypes,
      (classify a b).key ∈ relationLabels := by
  decide

/-- Claim C4, witness: the label of the concrete pair (ILE, SEI) lies in the
fixed enumeration. -/
theorem C4_totality_witness :
    (classify (typeOf "ILE") (typeOf "SEI")).key ∈ relationLabels :=
  C4_totality (typeOf "ILE") (by decide) (typeOf "SEI") (by decide)

/-- Claim C5: each of the 8 canonical dual pairs is classified "Duality" in
both argument orderings, with the duals set built from the
sorted-and-joined code pairs. -/
theorem C5_duality_coverage :
    ∀ p ∈ DUAL_PAIRS,
      (classify (typeOf p.1) (typeOf p.2)).key = "Duality" ∧
      (classify (typeOf p.2) (typeOf p.1)).key = "Duality" := by
  decide

/-- Claim C5, witness: the dual pair (ILE, SEI) yields "Duality" both
ways. -/
theorem C5_duality_coverage_witness :
    (classify (typeOf "ILE") (typeOf "SEI")).key = "Duality" ∧
    (classify (typeOf "SEI") (typeOf "ILE")).key = "Duality" :=
  C5_duality_coverage ("ILE", "SEI") (by decide)

/-- Claim C6: `classifyRelation(a, a, duals)` returns "Identity" for each of
the 16 canonical records, and no pair of canonical records with distinct
codes is labelled "Identity". -/
theorem C6_identity_exclusive :
    (∀ a ∈ canonicalTypes, (classify a a).key = "Identity") ∧
    (∀ a ∈ canonicalTypes, ∀ b ∈ canonicalTypes,
      a.code ≠ b.code → (classify a b).key ≠ "Identity") := by
  decide

/-- Claim C6, witness: LII with itself yields "Identity"; the distinct pair
(ILE, SEI) does not. -/
theorem C6_identity_exclusive_witness :
    (classify (typeOf "LII") (typeOf "LII")).key = "Identity" ∧
    (classify (typeOf "ILE") (typeOf "SEI")).key ≠ "Identity" :=
  ⟨C6_identity_exclusive.1 (typeOf "LII") (by decide),
   C6_identity_exclusive.2 (typeOf "ILE") (by decide) (typeOf "SEI")
     (by decide) (by decide)⟩

/-- Claim C7: the canonical dual pairs form a perfect matching on the 16
codes — every canonical code occurs in exactly one of the 8 pairs, and no
pair repeats a code. -/
theorem C7_perfect_matching :
    (∀ c ∈ TYPE_CODES,
      (DUAL_PAIRS.countP fun p => p.1 == c || p.2 == c) = 1) ∧
    (∀ p ∈ DUAL_PAIRS, p.1 ≠ p.2) := by
  decide

/-- Claim C7, witness: the code "ILE" occurs in exactly one dual pair, and
the pair (ILE, SEI) has two distinct codes. -/
theorem C7_perfect_matching_witness :
    (DUAL_PAIRS.countP fun p => p.1 == "ILE" || p.2 == "ILE") = 1 ∧
    ("ILE", "SEI").1 ≠ ("ILE", "SEI").2 :=
  ⟨C7_perfect_matching.1 "ILE" (by decide),
   C7_perfect_matching.2 ("ILE", "SEI") (by decide)⟩

/-- Claim C8: every canonical record's leading information element differs
from its creative information element. -/
theorem C8_leading_ne_creative :
    ∀ t ∈ canonicalTypes, t.leading ≠ t.creative := by
  decide

/-- Claim C8, witness: the invariant at the concrete record ILE. -/
theorem C8_leading_ne_creative_witness :
    (typeOf "ILE").leading ≠ (typeOf "ILE").creative :=
  C8_leading_ne_creative (typeOf "ILE") (by decide)

/-- Claim C9 (amended): when every attempt fails, `fetchWithRetry` performs
exactly `retries + 2` attempts — the initial attempt plus `retries + 1`
retries, one more than the configured retry count — sleeping `400 * k`
milliseconds after each failed attempt `k = 1 .. retries + 1` (linear
backoff), and then throws. -/
theorem C9_retry_policy (retries : Nat) (succeeds : Nat → Bool)
    (hfail : ∀ k, k ≤ retries + 2 → succeeds k = false) :
    (fetchWithRetry retries succeeds).attemptsMade = retries + 2 ∧
    (fetchWithRetry retries succeeds).delays =
      (List.range' 1 (retries + 1)).map (fun attempt => 400 * attempt) ∧
    (fetchWithRetry retries succeeds).ok = false := by
  have h := fetchGo_all_fail succeeds (retries + 1) 1
    (fun k h1 h2 => hfail k (by omega))
  rw [fetchWithRetry, h]
  exact ⟨by simp; omega, rfl, rfl⟩

/-- Claim C9, counterexample to the claim as stated: with the default
`retries = 2` and every attempt failing, the loop runs 4 attempts — i.e. 3
retries, exceeding the configured retry count — because the guard
`attempt > retries + 1` lets failed attempts 1 through `retries + 1` all
retry. The backoff delays are 400, 800 and 1200 ms and the call ends by
throwing. -/
theorem C9_counterexample :
    (fetchWithRetry defaultRetries (fun _ => false)).attemptsMade = 4 ∧
    ¬ (fetchWithRetry defaultRetries (fun _ => false)).attemptsMade
        ≤ defaultRetries + 1 ∧
    (fetchWithRetry defaultRetries (fun _ => false)).delays =
      [400, 800, 1200] ∧
    (fetchWithRetry defaultRetries (fun _ => false)).ok = false := by
  decide

/-- Claim C9, witness: the amended theorem applied at the default retry
count with an all-failing attempt sequence. -/
theorem C9_retry_policy_witness :
    (fetchWithRetry 2 (fun _ => false)).attemptsMade = 2 + 2 ∧
    (fetchWithRetry 2 (fun _ => false)).delays =
      (List.range' 1 (2 + 1)).map (fun attempt => 400 * attempt) ∧
    (fetchWithRetry 2 (fun _ => false)).ok = false :=
  C9_retry_policy 2 (fun _ => false) (fun _ _ => rfl)

/-- Claim C10: a missing (`null`/`undefined`) record argument makes
`classifyRelation` return the "Other" label with the Other color token
rather than throw, and a `duals` argument that is absent (or lacks a usable
`has` method) makes the duality test false — the call behaves exactly as
with an always-false duals set. -/
theorem C10_null_guard :
    (∀ b duals, classifyRelation none b duals =
      { key := "Other", color := otherColor }) ∧
    (∀ a duals, classifyRelation a none duals =
      { key := "Other", color := otherColor }) ∧
    (∀ a b, classifyRelation (some a) (some b) none =
      classifyRelation (some a) (some b) (some fun _ => false)) :=
  ⟨fun _ _ => rfl,
   fun a _ => by cases a <;> rfl,
   fun _ _ => rfl⟩

end Socionics
